import Mathlib

/-!
Verification of the signaling relay and WebRTC negotiation core of the
video-call repository.

The development shallowly embeds:
* the negotiation hook in src/hooks/useWebRTC.js
  (handleSignalingMessage, initialize, cleanup),
* the room relay server (WebRTCRoom: onConnect, onMessage, onClose),
* the signaling transport wrapper in src/services/signaling.js
  (SignalingService: connect, open handler, sendOrQueue and the typed senders),
* the camera-switch handler (handleToggleCamera) of the call page component.

Asynchronous browser APIs (RTCPeerConnection operations, getUserMedia) are
external to the repository; they are modeled by an explicit environment
record whose operations return `Except`, mirroring the fact that each
`await`ed call may either resolve or throw.  State held in React refs and
state setters is modeled as fields of an explicit state record; each JS
function becomes a pure state-transformer.
-/

/-- Signaling messages exchanged through the relay.  This is the tagged
union described by the wire protocol: the payloads (SDP blobs, candidate
dictionaries, settings objects) are opaque to the relay and to the guard
logic, so they are modeled as strings. -/
inductive SigMsg where
  | offer (sdp : String)
  | answer (sdp : String)
  | iceCandidate (candidate : String)
  | peerJoined (peerId : String)
  | peerDisconnected (peerId : String)
  | aiSettings (settings : String)
  | aiResults (results : String)
  | other (tag : String)
deriving DecidableEq, Repr

/-- A local media track (as produced by getUserMedia): an identity plus a
kind ("audio" or "video"). -/
structure MediaTrack where
  id : Nat
  kind : String
deriving DecidableEq, Repr

/-- Environment modeling the external RTCPeerConnection asynchronous
operations used by handleSignalingMessage.  Each operation either resolves
(`Except.ok`) or rejects (`Except.error message`), matching the await/throw
behaviour of the browser API. -/
structure RtcEnv where
  setRemoteDescription : String → Except String Unit
  addIceCandidate : String → Except String Unit
  createOffer : Except String String
  createAnswer : Except String String
  setLocalDescription : String → Except String Unit

/-- Environment in which every RTCPeerConnection operation resolves. -/
def okEnv : RtcEnv where
  setRemoteDescription := fun _ => Except.ok ()
  addIceCandidate := fun _ => Except.ok ()
  createOffer := Except.ok "offer-sdp"
  createAnswer := Except.ok "answer-sdp"
  setLocalDescription := fun _ => Except.ok ()

/-- Environment in which setRemoteDescription rejects (all other
operations resolve). -/
def failRemoteDescEnv : RtcEnv :=
  { okEnv with setRemoteDescription := fun _ => Except.error "remote description failure" }

/-- Environment in which createOffer rejects (all other operations
resolve). -/
def failCreateOfferEnv : RtcEnv :=
  { okEnv with createOffer := Except.error "create offer failure" }

/-- State of one useWebRTC hook instance: the React state cells
(localStream, remoteStream, connectionState, error), the refs
(peerConnectionRef, signalingRef, localStreamRef, pendingIceCandidatesRef,
isNegotiatingRef, hasCreatedOfferRef), the observable state of the
underlying RTCPeerConnection (remote/local description, signalingState,
candidates applied so far, tracks added), and observation logs for the
side effects the claims talk about (messages handed to the signaling
service, offers created, errors surfaced, tracks stopped, close calls). -/
structure ClientState where
  localStream : Option (List MediaTrack)
  remoteStream : Option (List MediaTrack)
  connectionState : String
  error : Option String
  errorLog : List String
  peerConnection : Option Unit
  signaling : Option Unit
  localStreamRef : Option (List MediaTrack)
  pendingIceCandidates : List String
  isNegotiating : Bool
  hasCreatedOffer : Bool
  remoteDescription : Option String
  localDescription : Option String
  signalingState : String
  appliedCandidates : List String
  createdOffers : List String
  sentMessages : List SigMsg
  pcTracks : List MediaTrack
  stopLog : List MediaTrack
  pcCloseCount : Nat
  sigCloseCount : Nat
deriving DecidableEq, Repr

/-- The setError React state setter: records the surfaced message (last
writer wins for the visible value; the log keeps every surfaced message). -/
def setErr (s : ClientState) (e : String) : ClientState :=
  { s with error := some e, errorLog := s.errorLog ++ [e] }

/-- Optional-chained send through signalingRef.current: a no-op when the
signaling ref is null, otherwise the message is handed to the signaling
service. -/
def sendViaSignaling (s : ClientState) (m : SigMsg) : ClientState :=
  if s.signaling.isSome then { s with sentMessages := s.sentMessages ++ [m] }
  else s

/-- The for-of loop over pendingIceCandidatesRef.current inside the offer
and answer cases: candidates are applied one by one, in list order; if an
addIceCandidate rejects, the loop aborts with the state reached so far
(already-applied candidates stay applied, the pending buffer itself is not
yet cleared, since the clearing assignment comes after the loop) together
with the error message. -/
def applyPendingLoop (env : RtcEnv) (s : ClientState) :
    List String → Except (ClientState × String) ClientState
  | [] => Except.ok s
  | c :: rest =>
    match env.addIceCandidate c with
    | Except.ok _ =>
        applyPendingLoop env
          { s with appliedCandidates := s.appliedCandidates ++ [c] } rest
    | Except.error e => Except.error (s, e)

/-- The catch block of handleSignalingMessage: the error is logged and
surfaced via setError; nothing else is touched (in particular the guard
flags keep whatever value they had when the exception was thrown). -/
def catchSignalingError (s : ClientState) (e : String) : ClientState :=
  setErr s ("Signaling error: " ++ e)

/-- The handleSignalingMessage function of src/hooks/useWebRTC.js, as a
state transformer parametrized by the RTC environment and the isInitiator
flag.  Every branch of the JS switch is reproduced, including the early
return when the peer connection ref is null, the inner try/catch of the
peer-joined offer path (which resets both guard flags), and the outer
try/catch (which only surfaces the error). -/
def handleSignalingMessage (env : RtcEnv) (isInitiator : Bool)
    (s : ClientState) (msg : SigMsg) : ClientState :=
  if s.peerConnection.isNone then s
  else
    match msg with
    | SigMsg.offer sdp =>
        let s1 := { s with isNegotiating := true }
        match env.setRemoteDescription sdp with
        | Except.error e => catchSignalingError s1 e
        | Except.ok _ =>
          let s2 := { s1 with remoteDescription := some sdp,
                              signalingState := "have-remote-offer" }
          match applyPendingLoop env s2 s2.pendingIceCandidates with
          | Except.error (s3, e) => catchSignalingError s3 e
          | Except.ok s3 =>
            let s4 := { s3 with pendingIceCandidates := [] }
            match env.createAnswer with
            | Except.error e => catchSignalingError s4 e
            | Except.ok ans =>
              match env.setLocalDescription ans with
              | Except.error e => catchSignalingError s4 e
              | Except.ok _ =>
                let s5 := { s4 with localDescription := some ans,
                                    signalingState := "stable" }
                let s6 := sendViaSignaling s5 (SigMsg.answer ans)
                { s6 with isNegotiating := false }
    | SigMsg.answer sdp =>
        match env.setRemoteDescription sdp with
        | Except.error e => catchSignalingError s e
        | Except.ok _ =>
          let s2 := { s with remoteDescription := some sdp,
                             signalingState := "stable" }
          match applyPendingLoop env s2 s2.pendingIceCandidates with
          | Except.error (s3, e) => catchSignalingError s3 e
          | Except.ok s3 =>
            { s3 with pendingIceCandidates := [], isNegotiating := false }
    | SigMsg.iceCandidate c =>
        match s.remoteDescription with
        | none =>
            { s with pendingIceCandidates := s.pendingIceCandidates ++ [c] }
        | some _ =>
            match env.addIceCandidate c with
            | Except.ok _ =>
                { s with appliedCandidates := s.appliedCandidates ++ [c] }
            | Except.error e => catchSignalingError s e
    | SigMsg.peerJoined _ =>
        if isInitiator && !s.hasCreatedOffer && !s.isNegotiating then
          if s.signalingState != "stable" then s
          else
            let s1 := { s with isNegotiating := true, hasCreatedOffer := true }
            match env.createOffer with
            | Except.error _ =>
                { s1 with isNegotiating := false, hasCreatedOffer := false }
            | Except.ok off =>
              let s2 := { s1 with createdOffers := s1.createdOffers ++ [off] }
              match env.setLocalDescription off with
              | Except.error _ =>
                  { s2 with isNegotiating := false, hasCreatedOffer := false }
              | Except.ok _ =>
                let s3 := { s2 with localDescription := some off,
                                    signalingState := "have-local-offer" }
                sendViaSignaling s3 (SigMsg.offer off)
        else s
    | SigMsg.peerDisconnected _ =>
        setErr { s with connectionState := "disconnected" }
          "Other party disconnected"
    | SigMsg.aiSettings _ => s
    | SigMsg.aiResults _ => s
    | SigMsg.other _ => s

/-- Processing of a sequence of incoming signaling messages, one handler
invocation per message, in arrival order. -/
def processMsgs (env : RtcEnv) (isInitiator : Bool)
    (s : ClientState) (msgs : List SigMsg) : ClientState :=
  msgs.foldl (handleSignalingMessage env isInitiator) s

/-- A freshly initialized client state: peer connection and signaling
present, nothing negotiated yet, empty buffers and logs. -/
def initClient : ClientState where
  localStream := some [⟨0, "audio"⟩, ⟨1, "video"⟩]
  remoteStream := none
  connectionState := "new"
  error := none
  errorLog := []
  peerConnection := some ()
  signaling := some ()
  localStreamRef := some [⟨0, "audio"⟩, ⟨1, "video"⟩]
  pendingIceCandidates := []
  isNegotiating := false
  hasCreatedOffer := false
  remoteDescription := none
  localDescription := none
  signalingState := "stable"
  appliedCandidates := []
  createdOffers := []
  sentMessages := []
  pcTracks := [⟨0, "audio"⟩, ⟨1, "video"⟩]
  stopLog := []
  pcCloseCount := 0
  sigCloseCount := 0

/-- Predicate picking out offer messages among the messages handed to the
signaling service. -/
def isOfferMsg : SigMsg → Bool
  | SigMsg.offer _ => true
  | _ => false

/-- Number of offers a client has handed to the signaling service. -/
def offersSent (s : ClientState) : Nat :=
  (s.sentMessages.filter isOfferMsg).length

/-- Tracks of an optional stream (empty when the stream ref is null). -/
def streamTracks : Option (List MediaTrack) → List MediaTrack
  | none => []
  | some ts => ts

/-- The cleanup function of src/hooks/useWebRTC.js: stop every track of
the local stream ref (if any), close the peer connection (if any), close
the signaling connection (if any), reset the React stream/status state,
and null out every ref, emptying the candidate buffer and clearing both
guard flags.  The error state is not touched by cleanup. -/
def cleanup (s : ClientState) : ClientState :=
  let s1 :=
    match s.localStreamRef with
    | some ts => { s with stopLog := s.stopLog ++ ts }
    | none => s
  let s2 :=
    match s1.peerConnection with
    | some _ => { s1 with pcCloseCount := s1.pcCloseCount + 1 }
    | none => s1
  let s3 :=
    match s2.signaling with
    | some _ => { s2 with sigCloseCount := s2.sigCloseCount + 1 }
    | none => s2
  { s3 with
      localStream := none, remoteStream := none, connectionState := "new",
      peerConnection := none, signaling := none, localStreamRef := none,
      pendingIceCandidates := [], isNegotiating := false,
      hasCreatedOffer := false }

/-- The initialize operation of useWebRTC (the source function is named
initialize).  The getUserMedia outcome is passed in as an Except value:
ok carries the acquired stream, error carries the browser error message.
The body mirrors the source: a guard against duplicate initialization,
then initializeMedia (which on failure surfaces a camera/microphone
message via setError and rethrows), then createPeerConnection, then adding
the local tracks to the peer connection, then creating and connecting the
SignalingService; the outer catch surfaces an initialization-failed
message carrying the original error.  No signaling message is ever sent
by this function (the first offer is only triggered later by a peer-joined
event). -/
def initializeCall (mediaResult : Except String (List MediaTrack))
    (s : ClientState) : ClientState :=
  if s.peerConnection.isSome || s.signaling.isSome then s
  else
    match mediaResult with
    | Except.error err =>
        let s1 := setErr s ("Camera/microphone access denied: " ++ err)
        setErr s1 ("Initialization failed: " ++ err)
    | Except.ok stream =>
        let s1 := { s with localStreamRef := some stream, localStream := some stream }
        let s2 := { s1 with peerConnection := some () }
        let s3 := { s2 with pcTracks := stream }
        { s3 with signaling := some () }

/-- Relay-side room state: the set of currently connected peer ids (in
connection order) and a delivery log recording each (recipient, raw
message) pair handed to a socket, in send order. -/
structure Room where
  members : List String
  log : List (String × String)
deriving DecidableEq, Repr

/-- The room.broadcast(message, [excludeId]) primitive used by the PartyKit
server: the raw message is delivered to every current member except the
excluded connection id (every call site of the source passes exactly one
excluded id, the originator). -/
def Room.broadcast (r : Room) (msg : String) (excludeId : String) : Room :=
  { r with log := r.log ++
      (r.members.filter (fun m => m != excludeId)).map (fun m => (m, msg)) }

/-- The peer-joined notification JSON produced by WebRTCRoom.onConnect. -/
def encodePeerJoined (peerId : String) : String :=
  "\x7b\"type\":\"peer-joined\",\"peerId\":\"" ++ peerId ++ "\"\x7d"

/-- The peer-disconnected notification JSON produced by WebRTCRoom.onClose. -/
def encodePeerDisconnected (peerId : String) : String :=
  "\x7b\"type\":\"peer-disconnected\",\"peerId\":\"" ++ peerId ++ "\"\x7d"

/-- WebRTCRoom.onConnect: the connection is registered in the room, then a
peer-joined notification is broadcast to everyone except the new
connection itself. -/
def Room.onConnect (r : Room) (conn : String) : Room :=
  let r1 := { r with members := r.members ++ [conn] }
  r1.broadcast (encodePeerJoined conn) conn

/-- WebRTCRoom.onMessage: try to JSON.parse the raw message (the parse
outcome of the external JSON library is the parseOk parameter); on success
the raw message is broadcast unchanged to every member except the sender,
with no validation of its type field; on failure the error is logged and
nothing is broadcast. -/
def Room.onMessage (parseOk : String → Bool) (r : Room)
    (sender : String) (message : String) : Room :=
  if parseOk message then r.broadcast message sender else r

/-- WebRTCRoom.onClose: the closing connection leaves the membership and a
peer-disconnected notification is broadcast to the remaining members,
excluding the closed connection id. -/
def Room.onClose (r : Room) (conn : String) : Room :=
  let r1 := { r with members := r.members.erase conn }
  r1.broadcast (encodePeerDisconnected conn) conn

/-- Messages delivered to a given peer id, in order. -/
def deliveredTo (r : Room) (p : String) : List String :=
  (r.log.filter (fun e => e.1 == p)).map (fun e => e.2)

/-- JSON.stringify of the message envelope built by each typed sender of
SignalingService (payloads spliced verbatim). -/
def encodeSigMsg : SigMsg → String
  | SigMsg.offer o => "\x7b\"type\":\"offer\",\"offer\":" ++ o ++ "\x7d"
  | SigMsg.answer a => "\x7b\"type\":\"answer\",\"answer\":" ++ a ++ "\x7d"
  | SigMsg.iceCandidate c =>
      "\x7b\"type\":\"ice-candidate\",\"candidate\":" ++ c ++ "\x7d"
  | SigMsg.peerJoined p => "\x7b\"type\":\"peer-joined\",\"peerId\":" ++ p ++ "\x7d"
  | SigMsg.peerDisconnected p =>
      "\x7b\"type\":\"peer-disconnected\",\"peerId\":" ++ p ++ "\x7d"
  | SigMsg.aiSettings st => "\x7b\"type\":\"ai-settings\",\"settings\":" ++ st ++ "\x7d"
  | SigMsg.aiResults rs => "\x7b\"type\":\"ai-results\",\"results\":" ++ rs ++ "\x7d"
  | SigMsg.other t => "\x7b\"type\":" ++ t ++ "\x7d"

/-- Transport-level state of one SignalingService instance: whether the
PartySocket object exists, the isConnected flag (set by the open event,
cleared by close), the pending message queue, and the log of strings
actually written to the socket, in order. -/
structure SignalingServiceState where
  socket : Bool
  isConnected : Bool
  messageQueue : List String
  transmitted : List String
deriving DecidableEq, Repr

/-- State established by the SignalingService constructor: no socket yet,
not connected, empty queue. -/
def newSignalingService : SignalingServiceState :=
  { socket := false, isConnected := false, messageQueue := [], transmitted := [] }

/-- SignalingService.connect: creates the PartySocket when absent; the
open event has not fired yet, so isConnected stays false. -/
def SignalingServiceState.connect (s : SignalingServiceState) :
    SignalingServiceState :=
  if s.socket then s else { s with socket := true }

/-- The open-event listener of SignalingService.connect: set isConnected,
then send every queued message in queue order and empty the queue. -/
def SignalingServiceState.onOpen (s : SignalingServiceState) :
    SignalingServiceState :=
  { s with isConnected := true,
           transmitted := s.transmitted ++ s.messageQueue,
           messageQueue := [] }

/-- The SignalingService sendOrQueue helper (source name: _sendOrQueue):
write the stringified message to the socket when connected, otherwise
queue it. -/
def sendOrQueue (s : SignalingServiceState) (message : String) :
    SignalingServiceState :=
  if s.isConnected && s.socket then
    { s with transmitted := s.transmitted ++ [message] }
  else
    { s with messageQueue := s.messageQueue ++ [message] }

/-- SignalingService.sendOffer. -/
def sendOffer (s : SignalingServiceState) (offer : String) : SignalingServiceState :=
  sendOrQueue s (encodeSigMsg (SigMsg.offer offer))

/-- SignalingService.sendAnswer. -/
def sendAnswer (s : SignalingServiceState) (answer : String) : SignalingServiceState :=
  sendOrQueue s (encodeSigMsg (SigMsg.answer answer))

/-- SignalingService.sendIceCandidate. -/
def sendIceCandidate (s : SignalingServiceState) (candidate : String) :
    SignalingServiceState :=
  sendOrQueue s (encodeSigMsg (SigMsg.iceCandidate candidate))

/-- SignalingService.sendAISettings. -/
def sendAISettings (s : SignalingServiceState) (settings : String) :
    SignalingServiceState :=
  sendOrQueue s (encodeSigMsg (SigMsg.aiSettings settings))

/-- SignalingService.sendAIResults. -/
def sendAIResults (s : SignalingServiceState) (results : String) :
    SignalingServiceState :=
  sendOrQueue s (encodeSigMsg (SigMsg.aiResults results))

/-- Dispatch of a typed send operation by message shape. -/
def sendTyped (s : SignalingServiceState) (m : SigMsg) : SignalingServiceState :=
  match m with
  | SigMsg.offer o => sendOffer s o
  | SigMsg.answer a => sendAnswer s a
  | SigMsg.iceCandidate c => sendIceCandidate s c
  | SigMsg.aiSettings st => sendAISettings s st
  | SigMsg.aiResults rs => sendAIResults s rs
  | m => sendOrQueue s (encodeSigMsg m)

/-- Member names of the object returned by the useWebRTC hook, in the
order of the return statement of the source. -/
def useWebRTCReturnedMembers : List String :=
  ["localStream", "remoteStream", "connectionState", "error", "cleanup",
   "signalingRef"]

/-- The member list the specification ascribes to the API surface of the hook. -/
def specClaimedApiMembers : List String :=
  ["localStream", "remoteStream", "connectionState", "error", "cleanup",
   "sendAISettings", "sendAIResults"]

/-- Method names of the SignalingService class, in source order. -/
def signalingServiceMethods : List String :=
  ["connect", "_sendOrQueue", "sendOffer", "sendAnswer", "sendIceCandidate",
   "sendAISettings", "sendAIResults", "close"]

/-- Error object thrown by getUserMedia (the catch block branches on its
name, though every branch then crashes on the undefined setError). -/
structure GumError where
  name : String
  message : String
deriving DecidableEq, Repr

/-- State of the call page relevant to the camera switch: the tracks of
the local stream, the current facing mode, the switching flag, the error
banner visible on the page (the page renders the error state exposed by
the useWebRTC hook; the component destructures only error, not a setter,
so the camera-switch code has no way to write this field), the messages
handed to the signaling service, and the log of stopped tracks. -/
structure PageState where
  localStream : Option (List MediaTrack)
  facingMode : String
  isSwitchingCamera : Bool
  pageError : Option String
  sentMessages : List SigMsg
  stopLog : List MediaTrack
deriving DecidableEq, Repr

/-- First entry of getVideoTracks() of a track list. -/
def firstVideo (ts : List MediaTrack) : Option MediaTrack :=
  (ts.filter (fun t => t.kind == "video")).head?

/-- The handleToggleCamera function of the call page, parametrized by the
outcome of getUserMedia for the requested facing mode (the gum argument,
applied to the opposite facing mode with audio disabled).  Mirrors the
source: early return while already switching or without a local stream;
on success, stop and remove the old video track (when present), add the
new video track, and flip the facing mode.  On gum failure, or on a new
stream without a video track, control reaches the catch block, whose
every branch calls setError — an identifier that is never defined in this
component (the hook returns error but no setter, and no local state
declares one) — so looking up the callee throws a ReferenceError before
any message is displayed; the finally clause still clears the switching
flag, and the exception escapes the handler as a rejected promise.  The
failure outcome is therefore Except.error carrying the state left behind
and the escaping ReferenceError; the pageError banner is never written on
any path.  No signaling message is sent on any path. -/
def handleToggleCamera (gum : String → Except GumError (List MediaTrack))
    (s : PageState) : Except (PageState × String) PageState :=
  if s.isSwitchingCamera || s.localStream.isNone then Except.ok s
  else
    match s.localStream with
    | none => Except.ok s
    | some ts =>
      let newFacingMode := if s.facingMode == "user" then "environment" else "user"
      match gum newFacingMode with
      | Except.error _ =>
          Except.error ({ s with isSwitchingCamera := false },
            "ReferenceError: setError is not defined")
      | Except.ok newTracks =>
        match firstVideo newTracks with
        | none =>
            Except.error ({ s with isSwitchingCamera := false },
              "ReferenceError: setError is not defined")
        | some v =>
          let ts1 :=
            match firstVideo ts with
            | some o => ts.erase o
            | none => ts
          let stop1 :=
            match firstVideo ts with
            | some o => s.stopLog ++ [o]
            | none => s.stopLog
          Except.ok { s with localStream := some (ts1 ++ [v]),
                             stopLog := stop1,
                             facingMode := newFacingMode,
                             isSwitchingCamera := false }

/-- Evaluation of setRemoteDescription in the all-resolving environment. -/
theorem okEnv_setRemoteDescription (sdp : String) :
    okEnv.setRemoteDescription sdp = Except.ok () := rfl

/-- Evaluation of addIceCandidate in the all-resolving environment. -/
theorem okEnv_addIceCandidate (c : String) :
    okEnv.addIceCandidate c = Except.ok () := rfl

/-- Evaluation of createOffer in the all-resolving environment. -/
theorem okEnv_createOffer : okEnv.createOffer = Except.ok "offer-sdp" := rfl

/-- Evaluation of createAnswer in the all-resolving environment. -/
theorem okEnv_createAnswer : okEnv.createAnswer = Except.ok "answer-sdp" := rfl

/-- Evaluation of setLocalDescription in the all-resolving environment. -/
theorem okEnv_setLocalDescription (x : String) :
    okEnv.setLocalDescription x = Except.ok () := rfl

/-- Handing a message to signaling does not change the applied candidates. -/
theorem sendViaSignaling_appliedCandidates (s : ClientState) (m : SigMsg) :
    (sendViaSignaling s m).appliedCandidates = s.appliedCandidates := by
  unfold sendViaSignaling; split <;> rfl

/-- Handing a message to signaling does not change the pending buffer. -/
theorem sendViaSignaling_pendingIceCandidates (s : ClientState) (m : SigMsg) :
    (sendViaSignaling s m).pendingIceCandidates = s.pendingIceCandidates := by
  unfold sendViaSignaling; split <;> rfl

/-- Handing a message to signaling does not change the remote description. -/
theorem sendViaSignaling_remoteDescription (s : ClientState) (m : SigMsg) :
    (sendViaSignaling s m).remoteDescription = s.remoteDescription := by
  unfold sendViaSignaling; split <;> rfl

/-- Handing a message to signaling does not change the offer flag. -/
theorem sendViaSignaling_hasCreatedOffer (s : ClientState) (m : SigMsg) :
    (sendViaSignaling s m).hasCreatedOffer = s.hasCreatedOffer := by
  unfold sendViaSignaling; split <;> rfl

/-- Handing a message to signaling does not change the negotiating flag. -/
theorem sendViaSignaling_isNegotiating (s : ClientState) (m : SigMsg) :
    (sendViaSignaling s m).isNegotiating = s.isNegotiating := by
  unfold sendViaSignaling; split <;> rfl

/-- While the remote description is unset, every ice-candidate message is
appended to the pending buffer, in arrival order, and nothing else in the
state changes. -/
theorem buffer_phase (env : RtcEnv) (b : Bool) (cs : List String)
    (s : ClientState) (hpc : s.peerConnection = some ())
    (hrd : s.remoteDescription = none) :
    processMsgs env b s (cs.map SigMsg.iceCandidate) =
      { s with pendingIceCandidates := s.pendingIceCandidates ++ cs } := by
  induction cs generalizing s with
  | nil => simp [processMsgs]
  | cons c rest ih =>
    have h1 : handleSignalingMessage env b s (SigMsg.iceCandidate c) =
        { s with pendingIceCandidates := s.pendingIceCandidates ++ [c] } := by
      simp [handleSignalingMessage, hpc, hrd]
    have h2 := ih { s with pendingIceCandidates := s.pendingIceCandidates ++ [c] }
      (by simp [hpc]) (by simp [hrd])
    simp only [List.map_cons, processMsgs, List.foldl_cons] at h2 ⊢
    rw [h1, h2]
    simp

/-- Draining the candidate loop in the all-operations-resolve environment
applies every candidate, in order, and succeeds. -/
theorem applyPendingLoop_ok (cs : List String) (s : ClientState) :
    applyPendingLoop okEnv s cs =
      Except.ok { s with appliedCandidates := s.appliedCandidates ++ cs } := by
  induction cs generalizing s with
  | nil => simp [applyPendingLoop]
  | cons c rest ih =>
    have hr : applyPendingLoop okEnv s (c :: rest) =
        applyPendingLoop okEnv
          { s with appliedCandidates := s.appliedCandidates ++ [c] } rest := rfl
    rw [hr, ih]
    simp

/-- C1: every ice-candidate message handled while the remote description is
unset is appended to the pending buffer in arrival order; immediately after
the remote description is set by a subsequent offer (or answer) message,
exactly those candidates are applied, in arrival order, and the buffer is
empty — no buffered candidate is lost or applied twice. -/
theorem c1_ice_candidates_buffered_then_applied_once (b : Bool)
    (cs : List String) (sdp : String) (s : ClientState)
    (hpc : s.peerConnection = some ()) (hrd : s.remoteDescription = none)
    (hp : s.pendingIceCandidates = []) :
    ((processMsgs okEnv b s (cs.map SigMsg.iceCandidate)).pendingIceCandidates = cs ∧
     (processMsgs okEnv b s (cs.map SigMsg.iceCandidate)).appliedCandidates =
       s.appliedCandidates) ∧
    ((handleSignalingMessage okEnv b
        (processMsgs okEnv b s (cs.map SigMsg.iceCandidate))
        (SigMsg.offer sdp)).appliedCandidates = s.appliedCandidates ++ cs ∧
     (handleSignalingMessage okEnv b
        (processMsgs okEnv b s (cs.map SigMsg.iceCandidate))
        (SigMsg.offer sdp)).pendingIceCandidates = [] ∧
     (handleSignalingMessage okEnv b
        (processMsgs okEnv b s (cs.map SigMsg.iceCandidate))
        (SigMsg.offer sdp)).remoteDescription = some sdp) ∧
    ((handleSignalingMessage okEnv b
        (processMsgs okEnv b s (cs.map SigMsg.iceCandidate))
        (SigMsg.answer sdp)).appliedCandidates = s.appliedCandidates ++ cs ∧
     (handleSignalingMessage okEnv b
        (processMsgs okEnv b s (cs.map SigMsg.iceCandidate))
        (SigMsg.answer sdp)).pendingIceCandidates = [] ∧
     (handleSignalingMessage okEnv b
        (processMsgs okEnv b s (cs.map SigMsg.iceCandidate))
        (SigMsg.answer sdp)).remoteDescription = some sdp) := by
  rw [buffer_phase okEnv b cs s hpc hrd]
  refine ⟨⟨by simp [hp], rfl⟩, ?_, ?_⟩ <;>
  · simp only [handleSignalingMessage, hpc, Option.isNone_some, Bool.false_eq_true,
      if_false, okEnv_setRemoteDescription, applyPendingLoop_ok, okEnv_createAnswer,
      okEnv_setLocalDescription]
    simp [sendViaSignaling_appliedCandidates, sendViaSignaling_pendingIceCandidates,
      sendViaSignaling_remoteDescription, hp]

/-- Witness for C1 at a concrete three-candidate trace. -/
theorem c1_witness :
    (processMsgs okEnv false initClient
        (["cand-a", "cand-b", "cand-c"].map SigMsg.iceCandidate)).pendingIceCandidates =
      ["cand-a", "cand-b", "cand-c"] ∧
    (handleSignalingMessage okEnv false
        (processMsgs okEnv false initClient
          (["cand-a", "cand-b", "cand-c"].map SigMsg.iceCandidate))
        (SigMsg.answer "remote-sdp")).appliedCandidates =
      ["cand-a", "cand-b", "cand-c"] := by
  have h := c1_ice_candidates_buffered_then_applied_once false
    ["cand-a", "cand-b", "cand-c"] "remote-sdp" initClient rfl rfl rfl
  exact ⟨h.1.1, by rw [h.2.2.1]; rfl⟩

/-- Evaluation of setRemoteDescription in the rejecting environment. -/
theorem failRemoteDescEnv_setRemoteDescription (sdp : String) :
    failRemoteDescEnv.setRemoteDescription sdp =
      Except.error "remote description failure" := rfl

/-- Evaluation of createOffer in the rejecting environment. -/
theorem failCreateOfferEnv_createOffer :
    failCreateOfferEnv.createOffer = Except.error "create offer failure" := rfl

/-- C2 counterexample: when setRemoteDescription rejects while handling an
offer, the outer catch of handleSignalingMessage surfaces the error but
does NOT reset the negotiation guard flags — isNegotiating remains true
(it was set at the top of the offer case), contradicting the claim that
both guard flags are reset on every handler exception. -/
theorem c2_counterexample :
    (handleSignalingMessage failRemoteDescEnv true initClient
        (SigMsg.offer "sdp-x")).isNegotiating = true ∧
    (handleSignalingMessage failRemoteDescEnv true initClient
        (SigMsg.offer "sdp-x")).error =
      some "Signaling error: remote description failure" := by
  constructor <;> rfl

/-- C2 (amended): a handler exception is surfaced as a Signaling error via
setError and does not crash, but the outer catch leaves the guard flags
untouched: a failure while processing an offer leaves isNegotiating set to
true and hasCreatedOffer unchanged.  The guard flags are reset (making a
later peer-joined retry possible) only by the inner catch of the
peer-joined offer-creation path, where a failed createOffer resets both
flags and surfaces no error. -/
theorem c2_error_surfaced_guards_reset_only_in_offer_creation :
    (∀ (b : Bool) (sdp : String) (s : ClientState), s.peerConnection = some () →
      (handleSignalingMessage failRemoteDescEnv b s (SigMsg.offer sdp)).error =
        some "Signaling error: remote description failure" ∧
      (handleSignalingMessage failRemoteDescEnv b s (SigMsg.offer sdp)).isNegotiating = true ∧
      (handleSignalingMessage failRemoteDescEnv b s (SigMsg.offer sdp)).hasCreatedOffer =
        s.hasCreatedOffer) ∧
    (∀ (p : String) (s : ClientState), s.peerConnection = some () →
      s.hasCreatedOffer = false → s.isNegotiating = false →
      s.signalingState = "stable" →
      (handleSignalingMessage failCreateOfferEnv true s
          (SigMsg.peerJoined p)).isNegotiating = false ∧
      (handleSignalingMessage failCreateOfferEnv true s
          (SigMsg.peerJoined p)).hasCreatedOffer = false ∧
      (handleSignalingMessage failCreateOfferEnv true s
          (SigMsg.peerJoined p)).error = s.error) := by
  constructor
  · intro b sdp s hpc
    simp only [handleSignalingMessage, hpc, Option.isNone_some, Bool.false_eq_true,
      if_false, failRemoteDescEnv_setRemoteDescription]
    simp [catchSignalingError, setErr]
  · intro p s hpc hflag hneg hss
    simp only [handleSignalingMessage, hpc, Option.isNone_some, Bool.false_eq_true,
      if_false, hflag, hneg, hss, Bool.not_false, Bool.and_true, bne_self_eq_false,
      failCreateOfferEnv_createOffer]
    simp

/-- Witness for the amended C2 at a concrete state: a failed createOffer in
the peer-joined path leaves both guard flags cleared. -/
theorem c2_witness :
    (handleSignalingMessage failCreateOfferEnv true initClient
        (SigMsg.peerJoined "peer-b")).isNegotiating = false ∧
    (handleSignalingMessage failCreateOfferEnv true initClient
        (SigMsg.peerJoined "peer-b")).hasCreatedOffer = false := by
  have h := c2_error_surfaced_guards_reset_only_in_offer_creation.2 "peer-b"
    initClient rfl rfl rfl rfl
  exact ⟨h.1, h.2.1⟩

/-- Handing a message to signaling does not change the created-offer log. -/
theorem sendViaSignaling_createdOffers (s : ClientState) (m : SigMsg) :
    (sendViaSignaling s m).createdOffers = s.createdOffers := by
  unfold sendViaSignaling; split <;> rfl

/-- Handing one message to signaling sends at most one more offer. -/
theorem offersSent_sendViaSignaling_le (s : ClientState) (m : SigMsg) :
    offersSent (sendViaSignaling s m) ≤ offersSent s + 1 := by
  unfold sendViaSignaling
  split
  · unfold offersSent
    simp only [List.filter_append, List.length_append]
    have : (List.filter isOfferMsg [m]).length ≤ 1 := by
      cases hm : isOfferMsg m <;> simp [List.filter, hm]
    omega
  · exact Nat.le_succ _

/-- Under the all-resolving environment, any message handled from a state
whose hasCreatedOffer flag is set leaves the flag set: nothing but the
inner catch of the offer-creation path (which cannot run when the flag is
set) ever clears it. -/
theorem handle_okEnv_hasCreatedOffer_true (b : Bool) (s : ClientState)
    (msg : SigMsg) (h : s.hasCreatedOffer = true) :
    (handleSignalingMessage okEnv b s msg).hasCreatedOffer = true := by
  unfold handleSignalingMessage
  split
  · exact h
  · cases msg with
    | offer sdp =>
        simp only [okEnv_setRemoteDescription, applyPendingLoop_ok,
          okEnv_createAnswer, okEnv_setLocalDescription]
        simp [sendViaSignaling_hasCreatedOffer, h]
    | answer sdp =>
        simp only [okEnv_setRemoteDescription, applyPendingLoop_ok]
        simp [h]
    | iceCandidate c =>
        cases hrd : s.remoteDescription <;>
          simp [okEnv_addIceCandidate, hrd, h]
    | peerJoined p => simp [h]
    | peerDisconnected p => simp [setErr, h]
    | aiSettings x => exact h
    | aiResults x => exact h
    | other t => exact h

/-- The hasCreatedOffer flag, once set, survives processing any sequence
of messages under the all-resolving environment. -/
theorem processMsgs_hasCreatedOffer_true (b : Bool) (msgs : List SigMsg)
    (s : ClientState) (h : s.hasCreatedOffer = true) :
    (processMsgs okEnv b s msgs).hasCreatedOffer = true := by
  induction msgs generalizing s with
  | nil => exact h
  | cons m rest ih =>
      exact ih (handleSignalingMessage okEnv b s m)
        (handle_okEnv_hasCreatedOffer_true b s m h)

/-- A peer-joined event handled while hasCreatedOffer is already set is
ignored: the state is returned unchanged. -/
theorem handle_peerJoined_flag_set (env : RtcEnv) (b : Bool) (s : ClientState)
    (p : String) (h : s.hasCreatedOffer = true) :
    handleSignalingMessage env b s (SigMsg.peerJoined p) = s := by
  unfold handleSignalingMessage
  split
  · rfl
  · simp [h]

/-- One peer-joined step from a state whose offer flag is clear: either the
state is unchanged, or the offer flag becomes set while at most one offer
is created and at most one offer message is handed to signaling. -/
theorem handle_peerJoined_flag_clear (b : Bool) (s : ClientState) (p : String) :
    handleSignalingMessage okEnv b s (SigMsg.peerJoined p) = s ∨
    ((handleSignalingMessage okEnv b s (SigMsg.peerJoined p)).hasCreatedOffer = true ∧
     offersSent (handleSignalingMessage okEnv b s (SigMsg.peerJoined p)) ≤
       offersSent s + 1 ∧
     (handleSignalingMessage okEnv b s (SigMsg.peerJoined p)).createdOffers.length ≤
       s.createdOffers.length + 1) := by
  by_cases hpc : s.peerConnection.isNone
  · left; simp [handleSignalingMessage, hpc]
  · by_cases hguard : (b && !s.hasCreatedOffer && !s.isNegotiating) = true
    · by_cases hss : (s.signalingState != "stable") = true
      · left; simp [handleSignalingMessage, hpc, hguard, hss]
      · have hss' : (s.signalingState != "stable") = false := by
          simpa using hss
        right
        have hred : handleSignalingMessage okEnv b s (SigMsg.peerJoined p) =
            sendViaSignaling
              { s with isNegotiating := true, hasCreatedOffer := true,
                       createdOffers := s.createdOffers ++ ["offer-sdp"],
                       localDescription := some "offer-sdp",
                       signalingState := "have-local-offer" }
              (SigMsg.offer "offer-sdp") := by
          simp [handleSignalingMessage, hpc, hguard, hss', okEnv_createOffer,
            okEnv_setLocalDescription]
        rw [hred]
        refine ⟨?_, ?_, ?_⟩
        · simp [sendViaSignaling_hasCreatedOffer]
        · exact offersSent_sendViaSignaling_le _ _
        · simp [sendViaSignaling_createdOffers]
    · left
      have hguard' : (b && !s.hasCreatedOffer && !s.isNegotiating) = false := by
        simpa using hguard
      simp [handleSignalingMessage, hpc, hguard']

/-- C4: under isInitiator = true, a sequence of peer-joined events starting
from a state with the offer flag clear creates and sends at most one offer;
once the flag is set every message (in particular every later peer-joined,
which leaves the state exactly unchanged) preserves it; and a failed offer
attempt in the peer-joined path resets both guard flags, which is the only
way offer creation is re-permitted. -/
theorem c4_at_most_one_offer_per_session :
    (∀ (ps : List String) (s : ClientState), s.hasCreatedOffer = false →
      offersSent (processMsgs okEnv true s (ps.map SigMsg.peerJoined)) ≤
        offersSent s + 1 ∧
      (processMsgs okEnv true s (ps.map SigMsg.peerJoined)).createdOffers.length ≤
        s.createdOffers.length + 1) ∧
    (∀ (s : ClientState) (p : String), s.hasCreatedOffer = true →
      handleSignalingMessage okEnv true s (SigMsg.peerJoined p) = s) ∧
    (∀ (msgs : List SigMsg) (s : ClientState), s.hasCreatedOffer = true →
      (processMsgs okEnv true s msgs).hasCreatedOffer = true) ∧
    (∀ (s : ClientState) (p : String), s.peerConnection = some () →
      s.hasCreatedOffer = false → s.isNegotiating = false →
      s.signalingState = "stable" →
      (handleSignalingMessage failCreateOfferEnv true s
          (SigMsg.peerJoined p)).hasCreatedOffer = false ∧
      (handleSignalingMessage failCreateOfferEnv true s
          (SigMsg.peerJoined p)).isNegotiating = false) := by
  have flagTrueFold : ∀ (ps : List String) (s : ClientState),
      s.hasCreatedOffer = true →
      processMsgs okEnv true s (ps.map SigMsg.peerJoined) = s := by
    intro ps
    induction ps with
    | nil => intro s _; rfl
    | cons p rest ih =>
        intro s h
        simp only [List.map_cons, processMsgs, List.foldl_cons]
        rw [handle_peerJoined_flag_set okEnv true s p h]
        exact ih s h
  refine ⟨?_, ?_, ?_, ?_⟩
  · intro ps
    induction ps with
    | nil => intro s _; exact ⟨Nat.le_succ _, Nat.le_succ _⟩
    | cons p rest ih =>
        intro s h
        simp only [List.map_cons, processMsgs, List.foldl_cons] at ih ⊢
        rcases handle_peerJoined_flag_clear true s p with heq | ⟨hflag, hsent, hcre⟩
        · rw [heq]; exact ih s h
        · have hfold := flagTrueFold rest
            (handleSignalingMessage okEnv true s (SigMsg.peerJoined p)) hflag
          simp only [processMsgs] at hfold
          rw [hfold]
          exact ⟨hsent, hcre⟩
  · exact fun s p h => handle_peerJoined_flag_set okEnv true s p h
  · exact fun msgs s h => processMsgs_hasCreatedOffer_true true msgs s h
  · intro s p hpc hflag hneg hss
    simp only [handleSignalingMessage, hpc, Option.isNone_some, Bool.false_eq_true,
      if_false, hflag, hneg, hss, Bool.not_false, Bool.and_true, bne_self_eq_false,
      failCreateOfferEnv_createOffer]
    simp

/-- Witness for C4 at a concrete three-join trace from a fresh initiator
state. -/
theorem c4_witness :
    offersSent (processMsgs okEnv true initClient
      (["p1", "p2", "p3"].map SigMsg.peerJoined)) ≤ offersSent initClient + 1 :=
  (c4_at_most_one_offer_per_session.1 ["p1", "p2", "p3"] initClient rfl).1

/-- C5: cleanup is idempotent — a second call is observationally a no-op
(the resulting state, including every side-effect log, is identical to a
single call, so no track is stopped twice and no handle is closed twice
across repeated calls), it stops each track of the local stream ref
exactly once per effective run, and it is total on every state, including
states where initialization never completed (all refs null). -/
theorem c5_cleanup_idempotent (s : ClientState) :
    cleanup (cleanup s) = cleanup s ∧
    (cleanup s).stopLog = s.stopLog ++ streamTracks s.localStreamRef ∧
    (cleanup s).localStreamRef = none ∧
    (cleanup s).peerConnection = none ∧
    (cleanup s).signaling = none ∧
    (cleanup s).pendingIceCandidates = [] ∧
    (cleanup s).isNegotiating = false ∧
    (cleanup s).hasCreatedOffer = false ∧
    (cleanup s).error = s.error := by
  cases hls : s.localStreamRef <;>
    cases hpc : s.peerConnection <;>
      cases hsig : s.signaling <;>
        simp [cleanup, streamTracks, hls, hpc, hsig]

/-- C7: when media acquisition fails, initialize surfaces the
media-access error (and then the initialization-failed message wrapping
the same underlying browser error) and aborts atomically: no peer
connection is created, no signaling connection is opened, no signaling
message is sent, no stream ref is left behind, and no track is added to
any peer connection. -/
theorem c7_media_failure_aborts_atomically (err : String) (s : ClientState)
    (hpc : s.peerConnection = none) (hsig : s.signaling = none) :
    (initializeCall (Except.error err) s).peerConnection = none ∧
    (initializeCall (Except.error err) s).signaling = none ∧
    (initializeCall (Except.error err) s).sentMessages = s.sentMessages ∧
    (initializeCall (Except.error err) s).pcTracks = s.pcTracks ∧
    (initializeCall (Except.error err) s).localStreamRef = s.localStreamRef ∧
    (initializeCall (Except.error err) s).error =
      some ("Initialization failed: " ++ err) ∧
    (initializeCall (Except.error err) s).errorLog =
      s.errorLog ++ ["Camera/microphone access denied: " ++ err,
                     "Initialization failed: " ++ err] := by
  simp [initializeCall, setErr, hpc, hsig]

/-- Witness for C7: a fresh hook state with a denied-permission error. -/
theorem c7_witness :
    (initializeCall (Except.error "Permission denied")
        { initClient with peerConnection := none, signaling := none }).peerConnection = none ∧
    (initializeCall (Except.error "Permission denied")
        { initClient with peerConnection := none, signaling := none }).error =
      some "Initialization failed: Permission denied" := by
  have h := c7_media_failure_aborts_atomically "Permission denied"
    { initClient with peerConnection := none, signaling := none } rfl rfl
  exact ⟨h.1, by rw [h.2.2.2.2.2.1]; rfl⟩

/-- Recipient pairs built after filtering out p contain no pair addressed to p. -/
theorem pairs_to_excluded_empty (msg p : String) (l : List String) :
    ((l.filter (fun m => m != p)).map (fun m => (m, msg))).filter
      (fun e => e.1 == p) = [] := by
  induction l with
  | nil => rfl
  | cons a rest ih =>
      by_cases h : a = p
      · subst h; simp [List.filter_cons, ih]
      · have hb : (a != p) = true := by simp [h]
        simp [List.filter_cons, hb, h, ih]

/-- A broadcast that excludes p delivers nothing to p. -/
theorem deliveredTo_broadcast_excluded (r : Room) (msg p : String) :
    deliveredTo (r.broadcast msg p) p = deliveredTo r p := by
  unfold deliveredTo Room.broadcast
  simp [List.filter_append, pairs_to_excluded_empty]

/-- Filtering out an id that is not a member keeps the member list intact. -/
theorem filter_bne_of_not_mem (p : String) (l : List String) (h : p ∉ l) :
    l.filter (fun m => m != p) = l := by
  apply List.filter_eq_self.mpr
  intro a ha
  simp only [bne_iff_ne, ne_eq, decide_eq_true_eq]
  intro heq
  exact h (heq ▸ ha)

/-- C3: every relay broadcast reaches exactly the current members of the
room other than the originator P, and P is never delivered its own message
or a notification about itself: a forwarded message goes to the members
other than the sender; a join notification goes to exactly the members
present before P joined; a close notification goes to exactly the members
remaining after P left. -/
theorem c3_relay_never_echoes_to_originator :
    (∀ (parseOk : String → Bool) (r : Room) (p msgText : String),
      parseOk msgText = true →
      (Room.onMessage parseOk r p msgText).log =
        r.log ++ (r.members.filter (fun m => m != p)).map (fun m => (m, msgText)) ∧
      deliveredTo (Room.onMessage parseOk r p msgText) p = deliveredTo r p) ∧
    (∀ (r : Room) (p : String), p ∉ r.members →
      (Room.onConnect r p).log =
        r.log ++ r.members.map (fun m => (m, encodePeerJoined p)) ∧
      deliveredTo (Room.onConnect r p) p = deliveredTo r p) ∧
    (∀ (r : Room) (p : String), r.members.Nodup →
      (Room.onClose r p).log =
        r.log ++ (r.members.erase p).map (fun m => (m, encodePeerDisconnected p)) ∧
      deliveredTo (Room.onClose r p) p = deliveredTo r p) := by
  refine ⟨?_, ?_, ?_⟩
  · intro parseOk r p msgText hparse
    constructor
    · simp [Room.onMessage, hparse, Room.broadcast]
    · simp [Room.onMessage, hparse, deliveredTo_broadcast_excluded]
  · intro r p hfresh
    constructor
    · show (Room.broadcast _ _ _).log = _
      unfold Room.broadcast
      simp only [List.filter_append]
      rw [filter_bne_of_not_mem p r.members hfresh]
      simp
    · unfold Room.onConnect
      exact deliveredTo_broadcast_excluded _ _ _
  · intro r p hnd
    constructor
    · show (Room.broadcast _ _ _).log = _
      unfold Room.broadcast
      have hpe : p ∉ r.members.erase p := by
        intro hmem
        exact absurd ((List.Nodup.mem_erase_iff hnd).mp hmem).1 (by simp)
      rw [show ({ r with members := r.members.erase p } : Room).members =
            r.members.erase p from rfl]
      rw [filter_bne_of_not_mem p (r.members.erase p) hpe]
    · unfold Room.onClose
      exact deliveredTo_broadcast_excluded _ _ _

/-- Witness for C3: in a two-member room, a message sent by A is not
redelivered to A. -/
theorem c3_witness :
    deliveredTo (Room.onMessage (fun _ => true)
        ⟨["conn-a", "conn-b"], []⟩ "conn-a" "hello") "conn-a" =
      deliveredTo ⟨["conn-a", "conn-b"], []⟩ "conn-a" :=
  (c3_relay_never_echoes_to_originator.1 (fun _ => true)
    ⟨["conn-a", "conn-b"], []⟩ "conn-a" "hello" rfl).2

/-- C6: a message that fails to parse is dropped entirely (the room state,
membership and delivery log included, is unchanged and no exception
escapes); a message that parses is broadcast verbatim, whatever its type
field, to exactly the members other than the sender, with no
transformation of the payload. -/
theorem c6_malformed_dropped_wellformed_forwarded :
    (∀ (parseOk : String → Bool) (r : Room) (sender msgText : String),
      parseOk msgText = false →
      Room.onMessage parseOk r sender msgText = r) ∧
    (∀ (parseOk : String → Bool) (r : Room) (sender msgText : String),
      parseOk msgText = true →
      (Room.onMessage parseOk r sender msgText).members = r.members ∧
      (Room.onMessage parseOk r sender msgText).log =
        r.log ++ (r.members.filter (fun m => m != sender)).map
          (fun m => (m, msgText))) := by
  constructor
  · intro parseOk r sender msgText hparse
    simp [Room.onMessage, hparse]
  · intro parseOk r sender msgText hparse
    constructor
    · simp [Room.onMessage, hparse, Room.broadcast]
    · simp [Room.onMessage, hparse, Room.broadcast]

/-- Witness for C6: a malformed message leaves a concrete room unchanged,
and a parseable message of an unrecognized type is still forwarded. -/
theorem c6_witness :
    Room.onMessage (fun _ => false) ⟨["conn-a", "conn-b"], []⟩ "conn-a" "not-json" =
      ⟨["conn-a", "conn-b"], []⟩ ∧
    (Room.onMessage (fun _ => true) ⟨["conn-a", "conn-b"], []⟩ "conn-a"
        "\x7b\"type\":\"mystery\"\x7d").log =
      ([] : List (String × String)) ++
        ((["conn-a", "conn-b"].filter (fun m => m != "conn-a")).map
          (fun m => (m, "\x7b\"type\":\"mystery\"\x7d"))) :=
  ⟨c6_malformed_dropped_wellformed_forwarded.1 (fun _ => false)
      ⟨["conn-a", "conn-b"], []⟩ "conn-a" "not-json" rfl,
   (c6_malformed_dropped_wellformed_forwarded.2 (fun _ => true)
      ⟨["conn-a", "conn-b"], []⟩ "conn-a" "\x7b\"type\":\"mystery\"\x7d" rfl).2⟩

/-- While not connected, every send is appended to the message queue. -/
theorem foldl_sendOrQueue_not_connected (msgs : List String)
    (s : SignalingServiceState) (h : s.isConnected = false) :
    msgs.foldl sendOrQueue s = { s with messageQueue := s.messageQueue ++ msgs } := by
  induction msgs generalizing s with
  | nil => simp
  | cons m rest ih =>
      have h1 : sendOrQueue s m = { s with messageQueue := s.messageQueue ++ [m] } := by
        simp [sendOrQueue, h]
      simp only [List.foldl_cons]
      rw [h1, ih _ (by simp [h])]
      simp

/-- C10: every typed send invoked before the open event of the socket
appends its stringified message to the queue (nothing is transmitted and
nothing is dropped); when open fires, exactly the queued messages are
transmitted, in enqueue (FIFO) order, and the queue is emptied — so each
message crosses the connect boundary exactly once and per-sender order is
preserved. -/
theorem c10_sends_before_open_queued_then_flushed_fifo (ms : List SigMsg)
    (s : SignalingServiceState) (hconn : s.isConnected = false) :
    (ms.foldl sendTyped s).messageQueue = s.messageQueue ++ ms.map encodeSigMsg ∧
    (ms.foldl sendTyped s).transmitted = s.transmitted ∧
    ((ms.foldl sendTyped s).onOpen).transmitted =
      s.transmitted ++ s.messageQueue ++ ms.map encodeSigMsg ∧
    ((ms.foldl sendTyped s).onOpen).messageQueue = [] := by
  have hfold : ∀ (l : List SigMsg) (t : SignalingServiceState),
      l.foldl sendTyped t = (l.map encodeSigMsg).foldl sendOrQueue t := by
    intro l
    induction l with
    | nil => intro t; rfl
    | cons m rest ih =>
        intro t
        simp only [List.foldl_cons, List.map_cons]
        rw [show sendTyped t m = sendOrQueue t (encodeSigMsg m) from by
          cases m <;> rfl]
        exact ih _
  rw [hfold, foldl_sendOrQueue_not_connected _ _ hconn]
  refine ⟨rfl, rfl, ?_, rfl⟩
  simp [SignalingServiceState.onOpen, List.append_assoc]

/-- Witness for C10: three typed sends issued right after connect (before
open) are all transmitted, in order, by the open handler. -/
theorem c10_witness :
    (([SigMsg.offer "o1", SigMsg.iceCandidate "c1",
        SigMsg.aiSettings "st"].foldl sendTyped
          newSignalingService.connect).onOpen).transmitted =
      newSignalingService.connect.transmitted ++
        newSignalingService.connect.messageQueue ++
        [SigMsg.offer "o1", SigMsg.iceCandidate "c1",
          SigMsg.aiSettings "st"].map encodeSigMsg :=
  (c10_sends_before_open_queued_then_flushed_fifo
    [SigMsg.offer "o1", SigMsg.iceCandidate "c1", SigMsg.aiSettings "st"]
    newSignalingService.connect rfl).2.2.1

/-- C8 counterexample: the object returned by useWebRTC does not contain
sendAISettings or sendAIResults as members — it exposes signalingRef
instead — so the claimed API surface differs from the returned one. -/
theorem c8_counterexample :
    "sendAISettings" ∉ useWebRTCReturnedMembers ∧
    "sendAIResults" ∉ useWebRTCReturnedMembers ∧
    "signalingRef" ∈ useWebRTCReturnedMembers ∧
    useWebRTCReturnedMembers ≠ specClaimedApiMembers := by decide

/-- C8 (amended): the returned surface of the hook is exactly localStream,
remoteStream, connectionState, error, cleanup and signalingRef; the AI
send operations are not members of the returned object but methods of the
SignalingService reached through signalingRef (and they behave as
queue-or-send operations of the transport). -/
theorem c8_api_surface :
    useWebRTCReturnedMembers =
      ["localStream", "remoteStream", "connectionState", "error", "cleanup",
       "signalingRef"] ∧
    "sendAISettings" ∉ useWebRTCReturnedMembers ∧
    "sendAISettings" ∈ signalingServiceMethods ∧
    "sendAIResults" ∈ signalingServiceMethods ∧
    (∀ (s : SignalingServiceState) (st : String),
      sendAISettings s st = sendOrQueue s (encodeSigMsg (SigMsg.aiSettings st))) ∧
    (∀ (s : SignalingServiceState) (rs : String),
      sendAIResults s rs = sendOrQueue s (encodeSigMsg (SigMsg.aiResults rs))) := by
  refine ⟨rfl, by decide, by decide, by decide, fun s st => rfl, fun s rs => rfl⟩

/-- The first video track of a list has kind video. -/
theorem firstVideo_kind (ts : List MediaTrack) (t : MediaTrack)
    (h : firstVideo ts = some t) : t.kind = "video" := by
  unfold firstVideo at h
  cases hf : ts.filter (fun x => x.kind == "video") with
  | nil => rw [hf] at h; cases h
  | cons a rest =>
      rw [hf] at h
      simp only [List.head?_cons, Option.some.injEq] at h
      subst h
      have ha : a ∈ ts.filter (fun x => x.kind == "video") := by
        rw [hf]; exact List.mem_cons_self a rest
      have := (List.mem_filter.mp ha).2
      simpa using this

/-- Erasing an element that the predicate rejects does not change the
filtered list. -/
theorem filter_erase_of_pred_false (p : MediaTrack → Bool) (a : MediaTrack)
    (l : List MediaTrack) (h : p a = false) :
    (l.erase a).filter p = l.filter p := by
  induction l with
  | nil => rfl
  | cons b rest ih =>
      rw [List.erase_cons]
      by_cases hb : (b == a) = true
      · have hba : b = a := by simpa using hb
        rw [if_pos hb]
        rw [hba]
        simp [List.filter_cons, h]
      · rw [if_neg hb]
        cases hpb : p b <;> simp [List.filter_cons, hpb, ih]

/-- A successful camera switch stops exactly the old video track (recorded
once in the stop log), removes it from the local stream, appends exactly
the new video track obtained for the opposite facing mode, leaves the
audio tracks untouched, flips the facing mode, writes no error, and sends
no signaling message. -/
theorem camera_switch_success_replaces_video_only
    (gum : String → Except GumError (List MediaTrack))
    (s : PageState) (ts nts : List MediaTrack) (o v : MediaTrack)
    (hsw : s.isSwitchingCamera = false) (hls : s.localStream = some ts)
    (hov : firstVideo ts = some o)
    (hok : gum (if s.facingMode == "user" then "environment" else "user") =
      Except.ok nts)
    (hv : firstVideo nts = some v) :
    handleToggleCamera gum s =
      Except.ok { s with
        localStream := some (ts.erase o ++ [v]),
        stopLog := s.stopLog ++ [o],
        facingMode := (if s.facingMode == "user" then "environment" else "user"),
        isSwitchingCamera := false } ∧
    (ts.erase o ++ [v]).filter (fun t => t.kind == "audio") =
      ts.filter (fun t => t.kind == "audio") := by
  have hko : o.kind = "video" := firstVideo_kind ts o hov
  have hkv : v.kind = "video" := firstVideo_kind nts v hv
  constructor
  · cases hfm : (s.facingMode == "user") with
    | true =>
        rw [hfm] at hok
        simp only [if_true] at hok
        simp [handleToggleCamera, hsw, hls, hfm, hok, hov, hv]
    | false =>
        rw [hfm] at hok
        simp only [Bool.false_eq_true, if_false] at hok
        simp [handleToggleCamera, hsw, hls, hfm, hok, hov, hv]
  · rw [List.filter_append]
    rw [filter_erase_of_pred_false (fun t => t.kind == "audio") o ts (by simp [hko])]
    simp [hkv]

/-- Every failed getUserMedia during a camera switch ends in the catch
block whose call to the undefined setError throws: the handler rejects
with a ReferenceError, and the state it leaves behind is unchanged except
that the finally clause cleared the switching flag — in particular the
stream is intact, nothing was stopped, nothing was sent, and no
user-visible error was written. -/
theorem camera_switch_failure_raises (err : GumError) (s : PageState)
    (ts : List MediaTrack) (hls : s.localStream = some ts)
    (hsw : s.isSwitchingCamera = false) :
    handleToggleCamera (fun _ => Except.error err) s =
      Except.error ({ s with isSwitchingCamera := false },
        "ReferenceError: setError is not defined") := by
  simp [handleToggleCamera, hsw, hls]

/-- C9 (code bug): evaluated at a concrete front-camera call state, a
successful switch does replace exactly the video track as the claim says
(old video track stopped and removed, new one added, audio untouched,
facing mode flipped, nothing sent); but at the failing input — getUserMedia
rejecting with OverconstrainedError — no user-visible error is surfaced:
the catch block calls setError, an identifier the call page never defines
(the hook exposes only error), so the handler throws ReferenceError with
the state otherwise untouched, contradicting the claim's failure clause. -/
theorem c9_failed_switch_raises_reference_error :
    (handleToggleCamera
        (fun _ => Except.error ⟨"OverconstrainedError", "no back camera"⟩)
        ⟨some [⟨0, "audio"⟩, ⟨1, "video"⟩], "user", false, none, [], []⟩ =
      Except.error
        (⟨some [⟨0, "audio"⟩, ⟨1, "video"⟩], "user", false, none, [], []⟩,
         "ReferenceError: setError is not defined")) ∧
    (handleToggleCamera (fun _ => Except.ok [⟨2, "video"⟩])
        ⟨some [⟨0, "audio"⟩, ⟨1, "video"⟩], "user", false, none, [], []⟩ =
      Except.ok
        ⟨some [⟨0, "audio"⟩, ⟨2, "video"⟩], "environment", false, none, [],
         [⟨1, "video"⟩]⟩) :=
  ⟨rfl, rfl⟩
